import Mathlib

/-!
Verification of the range-selection and crop-orchestration logic of the
`AudioCropper` React component (`src/src/AudioCropper.tsx`, the
wavesurfer-based variant whose lines the claims cite).

The component's state hooks (`audioFile`, `startTime`, `endTime`,
`isProcessing`, `croppedAudioUrl`, `isFFmpegLoaded`) are embedded as a
`CropperState` record, and each event handler of the component becomes a
pure state transition.  External collaborators (the waveform widget and
the FFmpeg engine) appear only through the data they hand to those
handlers: the widget-reported duration, the widget-generated region id
and color, and the engine's outcome for a crop invocation.
-/

namespace AudioCropper

/-- JavaScript `Math.trunc`: rounds a rational toward zero. -/
def jsTrunc (q : ℚ) : ℤ := if 0 ≤ q then ⌊q⌋ else ⌈q⌉

/-- Modelled from the spec: `preserveDecimals` is imported from `./utils`,
a file that is not among the sources.  The spec describes it as truncation
(not rounding) of a value to a fixed decimal precision, with an explicit
round option that is unused at call sites; its scenarios use precision 2,
which is therefore the default here.  Call sites pass a single argument. -/
def preserveDecimals (v : ℚ) (precision : Nat := 2) : ℚ :=
  (jsTrunc (v * (10 : ℚ) ^ precision) : ℚ) / (10 : ℚ) ^ precision

/-- A browser `File`: a named byte buffer; `size` is its byte length. -/
structure JSFile where
  name : String
  content : List Nat
deriving DecidableEq

def JSFile.size (f : JSFile) : Nat := f.content.length

/-- The `AudioFileState` interface of the component. -/
structure AudioFileState where
  file : Option JSFile
  duration : ℚ
  url : String
deriving DecidableEq

/-- A wavesurfer region as configured by the `decode` handler: bounds plus
the label, color and interaction flags passed to `addRegion`. -/
structure Region where
  start : ℚ
  «end» : ℚ
  content : String
  color : String
  drag : Bool
  resize : Bool
deriving DecidableEq

/-- The component's React state, plus the region store of the current
wavesurfer instance, keyed by region id. -/
structure CropperState where
  audioFile : AudioFileState
  startTime : ℚ
  endTime : ℚ
  isProcessing : Bool
  croppedAudioUrl : String
  isFFmpegLoaded : Bool
  regions : List (String × Region)
deriving DecidableEq

/-- The `useState` initial values. -/
def initialState : CropperState :=
  { audioFile := { file := none, duration := 0, url := "" }
    startTime := 0
    endTime := 0
    isProcessing := false
    croppedAudioUrl := ""
    isFFmpegLoaded := false
    regions := [] }

/-- The user-visible notifications the component can emit
(`message.error` / `message.success` calls, by call site). -/
inductive Msg where
  /-- `FFmpeg 初始化错误，音频裁剪功能可能不可用` -/
  | ffmpegInitError
  /-- `文件大小不能超过 _MB`, carrying the limit in megabytes -/
  | fileTooLarge (limitMB : ℚ)
  /-- `FFmpeg未完全加载或未选择文件` -/
  | cropNotReady
  /-- `音频裁剪出现错误: _`, carrying the thrown error's message -/
  | cropError (detail : String)
  /-- `音频裁剪成功` -/
  | cropSuccess
deriving DecidableEq

/-- `loadFFmpeg` resolving successfully: sets `isFFmpegLoaded`. -/
def loadFFmpegSuccess (s : CropperState) : CropperState :=
  { s with isFFmpegLoaded := true }

/-- `loadFFmpeg` failing: state untouched, an error notification shown. -/
def loadFFmpegFailure (s : CropperState) : CropperState × List Msg :=
  (s, [Msg.ffmpegInitError])

/-- Result of `handleFileUpload` (`beforeUpload`): the next state, the
notifications shown, and the returned boolean (always `false`, preventing
the default upload). -/
structure UploadOutcome where
  state : CropperState
  msgs : List Msg
  result : Bool
deriving DecidableEq

/-- Default of the `maxFileSize` prop: `10 * 1024 * 1024`. -/
def defaultMaxFileSize : Nat := 10 * 1024 * 1024

/-- `handleFileUpload`: rejects a file strictly larger than `maxFileSize`
with a notification and no state change; otherwise stores the file with a
fresh object URL and duration 0. -/
def handleFileUpload (maxFileSize : Nat) (file : JSFile) (url : String)
    (s : CropperState) : UploadOutcome :=
  if file.size > maxFileSize then
    { state := s
      msgs := [Msg.fileTooLarge ((maxFileSize : ℚ) / 1024 / 1024)]
      result := false }
  else
    { state := { s with audioFile := { file := some file, duration := 0, url := url } }
      msgs := []
      result := false }

/-- The wavesurfer-initialization effect that runs when `audioFile.url`
changes: the previous instance is destroyed and a fresh one (with an empty
region store) is created. -/
def waveSurferInit (s : CropperState) : CropperState := { s with regions := [] }

/-- The `ready` handler: `setEndTime(preserveDecimals(duration))` with the
widget-reported duration.  (`setAudioFile` there is commented out, and
`startTime` is not touched.) -/
def onReady (duration : ℚ) (s : CropperState) : CropperState :=
  { s with endTime := preserveDecimals duration }

/-- The `decode` handler: `regionsPlugin.addRegion` with literal options
`start: 0, end: 8, content: 'Resize or drag me!', drag: true, resize: true`
and a random color; no `id` option is passed, so the region is stored
under the widget-generated id `genId`. -/
def onDecode (genId genColor : String) (s : CropperState) : CropperState :=
  { s with regions := s.regions ++
      [(genId, { start := 0, «end» := 8, content := "Resize or drag me!"
                 color := genColor, drag := true, resize := true })] }

/-- The `region-updated` handler: stores both reported bounds, truncated. -/
def onRegionUpdated (a b : ℚ) (s : CropperState) : CropperState :=
  { s with startTime := preserveDecimals a, endTime := preserveDecimals b }

/-- `updateRegion`: looks up `regions.list['selection']` and, only when a
region with that key exists, updates its bounds to the given raw values. -/
def updateRegion (a b : ℚ) (s : CropperState) : CropperState :=
  if (List.lookup "selection" s.regions).isSome then
    { s with regions := s.regions.map fun p =>
        if p.1 = "selection" then (p.1, { p.2 with start := a, «end» := b }) else p }
  else s

/-- The range `Slider`'s `onChange` handler: stores both endpoints
truncated, then calls `updateRegion` with the raw values. -/
def onSliderChange (a b : ℚ) (s : CropperState) : CropperState :=
  updateRegion a b { s with startTime := preserveDecimals a, endTime := preserveDecimals b }

/-- The interval the crop trigger reads: `(startTime, endTime)`. -/
def currentInterval (s : CropperState) : ℚ × ℚ := (s.startTime, s.endTime)

/-- The full load sequence for one selected file: `handleFileUpload`, the
wavesurfer effect, then the widget's `ready` (reporting `d`) and `decode`
(creating the initial region under the generated id) events. -/
def loadPipeline (maxFileSize : Nat) (f : JSFile) (url : String) (d : ℚ)
    (genId genColor : String) (s : CropperState) : CropperState :=
  onDecode genId genColor (onReady d (waveSurferInit (handleFileUpload maxFileSize f url s).state))

/-- One token of the `ffmpeg.exec` argument list; a `num` token is the
string interpolation of a numeric state value. -/
inductive ExecArg where
  | str (s : String)
  | num (q : ℚ)
deriving DecidableEq

/-- The exec argument list built by `handleCrop`. -/
def cropArgs (a b : ℚ) : List ExecArg :=
  [ExecArg.str "-i", ExecArg.str "input.mp3", ExecArg.str "-ss", ExecArg.num a,
   ExecArg.str "-to", ExecArg.num b, ExecArg.str "-c", ExecArg.str "copy",
   ExecArg.str "output.mp3"]

/-- How one crop invocation of the engine can settle: a throw (from
`writeFile`/`exec`), success of `exec` with no readable `output.mp3`
(`readFile` rejects, caught as `null`), or a readable output buffer. -/
inductive EngineResult where
  | throws (errMsg : String)
  | noOutput
  | output (data : List Nat)
deriving DecidableEq

/-- Result of `handleCrop`: the settled state, the notifications shown,
and the exec argument list passed to the engine (`none` when the guard
returned before invoking it). -/
structure CropOutcome where
  state : CropperState
  msgs : List Msg
  execArgs : Option (List ExecArg)
deriving DecidableEq

/-- `handleCrop`: guard on a selected file and a loaded engine; then
write the input, run `cropArgs startTime endTime`, and either expose the
output under a fresh object URL (success message) or fall into the
`catch` (error message, detail `裁剪后的文件未生成` when the output file
was missing).  The `finally` clears `isProcessing` in every branch that
passed the guard. -/
def handleCrop (engine : EngineResult) (freshUrl : String)
    (s : CropperState) : CropOutcome :=
  if s.audioFile.file.isNone || !s.isFFmpegLoaded then
    { state := s, msgs := [Msg.cropNotReady], execArgs := none }
  else
    match engine with
    | EngineResult.throws errMsg =>
        { state := { s with isProcessing := false }
          msgs := [Msg.cropError errMsg]
          execArgs := some (cropArgs s.startTime s.endTime) }
    | EngineResult.noOutput =>
        { state := { s with isProcessing := false }
          msgs := [Msg.cropError "裁剪后的文件未生成"]
          execArgs := some (cropArgs s.startTime s.endTime) }
    | EngineResult.output _ =>
        { state := { s with isProcessing := false, croppedAudioUrl := freshUrl }
          msgs := [Msg.cropSuccess]
          execArgs := some (cropArgs s.startTime s.endTime) }

/-! ### Concrete sample states used by counterexamples and witnesses -/

/-- A 4-byte audio file. -/
def demoFile : JSFile := { name := "a.mp3", content := [0, 0, 0, 0] }

/-- A second 4-byte audio file. -/
def demoFileB : JSFile := { name := "b.mp3", content := [1, 1, 1, 1] }

/-- State after uploading `demoFile` into a fresh component and the widget
reporting duration 10 and generating region id `r1`. -/
def c1state : CropperState :=
  loadPipeline defaultMaxFileSize demoFile "blob:a" 10 "r1" "rgba(1, 2, 3, 0.5)" initialState

/-- `c1state` with the interval dragged to `[3, 5]` via the region. -/
def c2prev : CropperState := onRegionUpdated 3 5 c1state

/-- `c2prev` after a second file is loaded (widget duration 10 again). -/
def c2after : CropperState :=
  loadPipeline defaultMaxFileSize demoFileB "blob:b" 10 "r2" "rgba(4, 5, 6, 0.5)" c2prev

/-- A fully loaded state with the slider set to `[2.5, 7.3]`. -/
def demoReady : CropperState :=
  onSliderChange (5/2) (73/10) (loadFFmpegSuccess c1state)

/-! ### Helper lemmas -/

theorem jsTrunc_intCast (n : ℤ) : jsTrunc (n : ℚ) = n := by
  unfold jsTrunc
  split <;> simp

theorem updateRegion_startTime (a b : ℚ) (s : CropperState) :
    (updateRegion a b s).startTime = s.startTime := by
  unfold updateRegion
  split <;> rfl

theorem updateRegion_endTime (a b : ℚ) (s : CropperState) :
    (updateRegion a b s).endTime = s.endTime := by
  unfold updateRegion
  split <;> rfl

theorem updateRegion_of_no_selection (a b : ℚ) (s : CropperState)
    (h : List.lookup "selection" s.regions = none) :
    (updateRegion a b s).regions = s.regions := by
  unfold updateRegion
  rw [h]
  rfl

theorem sel_ne_r1 : ("selection" : String) ≠ "r1" := by decide

theorem preserveDecimals_ten : preserveDecimals 10 = 10 := by
  norm_num [preserveDecimals, jsTrunc]

theorem preserveDecimals_three : preserveDecimals 3 = 3 := by
  norm_num [preserveDecimals, jsTrunc]

theorem c1state_eval : c1state =
    { audioFile := { file := some demoFile, duration := 0, url := "blob:a" }
      startTime := 0, endTime := 10, isProcessing := false, croppedAudioUrl := ""
      isFFmpegLoaded := false
      regions := [("r1", { start := 0, «end» := 8, content := "Resize or drag me!"
                           color := "rgba(1, 2, 3, 0.5)", drag := true, resize := true })] } := by
  norm_num [c1state, loadPipeline, onDecode, onReady, waveSurferInit, handleFileUpload,
    demoFile, JSFile.size, defaultMaxFileSize, initialState, preserveDecimals, jsTrunc]

theorem c2prev_eval : c2prev =
    { audioFile := { file := some demoFile, duration := 0, url := "blob:a" }
      startTime := 3, endTime := 5, isProcessing := false, croppedAudioUrl := ""
      isFFmpegLoaded := false
      regions := [("r1", { start := 0, «end» := 8, content := "Resize or drag me!"
                           color := "rgba(1, 2, 3, 0.5)", drag := true, resize := true })] } := by
  unfold c2prev
  rw [c1state_eval]
  norm_num [onRegionUpdated, preserveDecimals, jsTrunc]

theorem c2after_eval : c2after =
    { audioFile := { file := some demoFileB, duration := 0, url := "blob:b" }
      startTime := 3, endTime := 10, isProcessing := false, croppedAudioUrl := ""
      isFFmpegLoaded := false
      regions := [("r2", { start := 0, «end» := 8, content := "Resize or drag me!"
                           color := "rgba(4, 5, 6, 0.5)", drag := true, resize := true })] } := by
  unfold c2after
  rw [c2prev_eval]
  norm_num [loadPipeline, onDecode, onReady, waveSurferInit, handleFileUpload,
    demoFileB, JSFile.size, defaultMaxFileSize, preserveDecimals, jsTrunc]

theorem demoReady_eval : demoReady =
    { audioFile := { file := some demoFile, duration := 0, url := "blob:a" }
      startTime := 5/2, endTime := 73/10, isProcessing := false, croppedAudioUrl := ""
      isFFmpegLoaded := true
      regions := [("r1", { start := 0, «end» := 8, content := "Resize or drag me!"
                           color := "rgba(1, 2, 3, 0.5)", drag := true, resize := true })] } := by
  unfold demoReady loadFFmpegSuccess
  rw [c1state_eval]
  norm_num [onSliderChange, updateRegion, sel_ne_r1, preserveDecimals, jsTrunc]

/-! ### Claims -/

/-- Claim C1, counterexample: loading an asset of duration 10 leaves the
interval at `[0, 10]` but the `decode` handler creates the visual region
with the hardcoded bounds `[0, 8]`, not at full width: its end is 8, which
differs from the duration 10. -/
theorem initialRegion_fixed_width_cex :
    c1state.endTime = 10 ∧
    (c1state.regions.map fun p => (p.2.start, p.2.«end»)) = [(0, 8)] ∧
    ((8 : ℚ) ≠ 10) := by
  rw [c1state_eval]
  norm_num

/-- Claim C1, amended: for every audio asset loaded (from the initial
state) whose duration is positive, initialization sets the interval to
`[0, truncated duration]`, and creates the visual region with the fixed
bounds start 0 and end 8 — not at full width — under the widget-generated
region id. -/
theorem initialLoad_sets_interval (m : Nat) (f : JSFile) (url : String) (d : ℚ)
    (gid gcolor : String) (hd : 0 < d) (hsize : f.size ≤ m) :
    (loadPipeline m f url d gid gcolor initialState).startTime = 0 ∧
    (loadPipeline m f url d gid gcolor initialState).endTime = preserveDecimals d ∧
    (loadPipeline m f url d gid gcolor initialState).regions =
      [(gid, { start := 0, «end» := 8, content := "Resize or drag me!"
               color := gcolor, drag := true, resize := true })] := by
  have h : ¬ (f.size > m) := not_lt.mpr hsize
  refine ⟨?_, ?_, ?_⟩ <;>
    simp [loadPipeline, onDecode, onReady, waveSurferInit, handleFileUpload, h, initialState]

/-- Claim C1, witness: the amended statement instantiated at duration 10
with a 4-byte file and widget-generated id `r1`. -/
theorem initialLoad_sets_interval_witness :
    (0 : ℚ) < 10 ∧ demoFile.size ≤ defaultMaxFileSize ∧
    c1state.startTime = 0 ∧ c1state.endTime = 10 ∧
    c1state.regions = [("r1", { start := 0, «end» := 8, content := "Resize or drag me!"
                                color := "rgba(1, 2, 3, 0.5)", drag := true, resize := true })] := by
  have h1 : (0 : ℚ) < 10 := by norm_num
  have h2 : demoFile.size ≤ defaultMaxFileSize := by decide
  obtain ⟨ha, hb, hc⟩ :=
    initialLoad_sets_interval defaultMaxFileSize demoFile "blob:a" 10 "r1" "rgba(1, 2, 3, 0.5)" h1 h2
  exact ⟨h1, h2, ha, hb.trans preserveDecimals_ten, hc⟩

/-- Claim C2, counterexample: with the interval previously dragged to
`[3, 5]`, loading a second asset of duration 10 leaves the start at 3 —
it is not reset to 0, so the interval is `[3, 10]`, not `[0, 10]`. -/
theorem newAsset_keeps_previous_start_cex :
    c2prev.startTime = 3 ∧ c2after.startTime = 3 ∧ ((3 : ℚ) ≠ 0) := by
  rw [c2prev_eval, c2after_eval]
  norm_num

/-- Claim C2, amended: after a new asset of duration `newDuration` loads,
the interval's end equals the truncated `newDuration`, but its start keeps
whatever value it had before — it is not reset to 0. -/
theorem load_new_asset_interval (m : Nat) (f : JSFile) (url : String) (d : ℚ)
    (gid gcolor : String) (s : CropperState) (hsize : f.size ≤ m) :
    (loadPipeline m f url d gid gcolor s).startTime = s.startTime ∧
    (loadPipeline m f url d gid gcolor s).endTime = preserveDecimals d := by
  have h : ¬ (f.size > m) := not_lt.mpr hsize
  constructor <;>
    simp [loadPipeline, onDecode, onReady, waveSurferInit, handleFileUpload, h]

/-- Claim C2, witness: the amended statement instantiated at a prior
interval `[3, 5]` and a second 4-byte file of duration 10. -/
theorem load_new_asset_interval_witness :
    demoFileB.size ≤ defaultMaxFileSize ∧
    c2prev.startTime = 3 ∧ c2after.startTime = 3 ∧ c2after.endTime = 10 := by
  have h2 : demoFileB.size ≤ defaultMaxFileSize := by decide
  obtain ⟨ha, hb⟩ :=
    load_new_asset_interval defaultMaxFileSize demoFileB "blob:b" 10 "r2" "rgba(4, 5, 6, 0.5)"
      c2prev h2
  have hp : c2prev.startTime = 3 := by rw [c2prev_eval]
  exact ⟨h2, hp, (ha.trans hp :), hb.trans preserveDecimals_ten⟩

/-- Claim C3, counterexample: after a slider change to `[2, 5]` on a state
whose (decode-created) region is stored under the widget-generated id
`r1`, the stored interval is `(2, 5)` but the visual region still spans
`(0, 8)`: the region's bounds do not equal the slider's bounds, because
`updateRegion` only updates a region stored under the key `selection`. -/
theorem sliderChange_region_sync_cex :
    currentInterval (onSliderChange 2 5 c1state) = (2, 5) ∧
    ((onSliderChange 2 5 c1state).regions.map fun p => (p.2.start, p.2.«end»)) = [(0, 8)] ∧
    (((0 : ℚ), (8 : ℚ)) ≠ ((2 : ℚ), (5 : ℚ))) := by
  rw [c1state_eval]
  constructor
  · norm_num [currentInterval, onSliderChange, updateRegion, sel_ne_r1, preserveDecimals, jsTrunc]
  constructor
  · norm_num [onSliderChange, updateRegion, sel_ne_r1, preserveDecimals, jsTrunc]
  · norm_num

/-- Claim C3, amended: a slider change stores both endpoints truncated to
the fixed precision as the interval, performing no further validation or
clamping, and calls `updateRegion` with the raw bounds; `updateRegion`
only affects a region stored under the key `selection`, so when no region
with that key exists (as for the decode-created region) the visual region
is left unchanged. -/
theorem sliderChange_behavior (a b : ℚ) (s : CropperState) :
    (onSliderChange a b s).startTime = preserveDecimals a ∧
    (onSliderChange a b s).endTime = preserveDecimals b ∧
    (List.lookup "selection" s.regions = none →
      (onSliderChange a b s).regions = s.regions) := by
  refine ⟨?_, ?_, fun h => ?_⟩
  · unfold onSliderChange
    rw [updateRegion_startTime]
  · unfold onSliderChange
    rw [updateRegion_endTime]
  · unfold onSliderChange
    exact updateRegion_of_no_selection a b _ h

/-- Claim C3, witness: the amended statement instantiated at the slider
change `[2, 5]` on the loaded sample state, whose region store has no
region under the key `selection`. -/
theorem sliderChange_behavior_witness :
    List.lookup "selection" c1state.regions = none ∧
    (onSliderChange 2 5 c1state).startTime = 2 ∧
    (onSliderChange 2 5 c1state).endTime = 5 ∧
    (onSliderChange 2 5 c1state).regions = c1state.regions := by
  have hl : List.lookup "selection" c1state.regions = none := by
    rw [c1state_eval]
    simp
  obtain ⟨h1, h2, h3⟩ := sliderChange_behavior 2 5 c1state
  refine ⟨hl, h1.trans ?_, h2.trans ?_, h3 hl⟩
  · norm_num [preserveDecimals, jsTrunc]
  · norm_num [preserveDecimals, jsTrunc]

/-- Claim C4: with an asset loaded and the engine ready, triggering a crop
invokes the engine with exactly the ordered argument list
`-i input.mp3 -ss <startTime> -to <endTime> -c copy output.mp3`, where the
two numeric tokens are the current interval's start and end. -/
theorem handleCrop_exec_args (s : CropperState) (eng : EngineResult) (u : String)
    (hf : s.audioFile.file.isSome = true) (hl : s.isFFmpegLoaded = true) :
    (handleCrop eng u s).execArgs =
      some [ExecArg.str "-i", ExecArg.str "input.mp3", ExecArg.str "-ss",
            ExecArg.num s.startTime, ExecArg.str "-to", ExecArg.num s.endTime,
            ExecArg.str "-c", ExecArg.str "copy", ExecArg.str "output.mp3"] := by
  obtain ⟨x, hx⟩ := Option.isSome_iff_exists.mp hf
  cases eng <;> simp [handleCrop, hx, hl, cropArgs]

/-- Claim C4, witness: on the loaded sample state with the slider set to
`[2.5, 7.3]`, the crop invocation carries start `2.5` and end `7.3`. -/
theorem handleCrop_exec_args_witness :
    demoReady.audioFile.file.isSome = true ∧ demoReady.isFFmpegLoaded = true ∧
    (handleCrop (EngineResult.output []) "blob:out" demoReady).execArgs =
      some [ExecArg.str "-i", ExecArg.str "input.mp3", ExecArg.str "-ss",
            ExecArg.num (5/2), ExecArg.str "-to", ExecArg.num (73/10),
            ExecArg.str "-c", ExecArg.str "copy", ExecArg.str "output.mp3"] := by
  have hf : demoReady.audioFile.file.isSome = true := by
    rw [demoReady_eval]
    simp
  have hl : demoReady.isFFmpegLoaded = true := by
    rw [demoReady_eval]
  have hs : demoReady.startTime = 5/2 := by
    rw [demoReady_eval]
  have he : demoReady.endTime = 73/10 := by
    rw [demoReady_eval]
  refine ⟨hf, hl, ?_⟩
  rw [handleCrop_exec_args demoReady (EngineResult.output []) "blob:out" hf hl, hs, he]

/-- Claim C5: when the crop invocation fails (the engine throws), the
prior audio asset (file, url, duration) and the selection (startTime,
endTime) are unchanged, the cropped-result URL is unchanged, a failure
notification is shown, and the processing flag settles back to false. -/
theorem handleCrop_failure_preserves (s : CropperState) (m u : String)
    (hf : s.audioFile.file.isSome = true) (hl : s.isFFmpegLoaded = true) :
    (handleCrop (EngineResult.throws m) u s).state.audioFile = s.audioFile ∧
    (handleCrop (EngineResult.throws m) u s).state.startTime = s.startTime ∧
    (handleCrop (EngineResult.throws m) u s).state.endTime = s.endTime ∧
    (handleCrop (EngineResult.throws m) u s).state.croppedAudioUrl = s.croppedAudioUrl ∧
    (handleCrop (EngineResult.throws m) u s).msgs = [Msg.cropError m] ∧
    (handleCrop (EngineResult.throws m) u s).state.isProcessing = false := by
  obtain ⟨x, hx⟩ := Option.isSome_iff_exists.mp hf
  refine ⟨?_, ?_, ?_, ?_, ?_, ?_⟩ <;> simp [handleCrop, hx, hl]

/-- Claim C5, witness: a throwing crop on the loaded sample state. -/
theorem handleCrop_failure_preserves_witness :
    demoReady.audioFile.file.isSome = true ∧ demoReady.isFFmpegLoaded = true ∧
    ((handleCrop (EngineResult.throws "boom") "blob:x" demoReady).state.audioFile =
      demoReady.audioFile ∧
    (handleCrop (EngineResult.throws "boom") "blob:x" demoReady).state.startTime =
      demoReady.startTime ∧
    (handleCrop (EngineResult.throws "boom") "blob:x" demoReady).state.endTime =
      demoReady.endTime ∧
    (handleCrop (EngineResult.throws "boom") "blob:x" demoReady).state.croppedAudioUrl =
      demoReady.croppedAudioUrl ∧
    (handleCrop (EngineResult.throws "boom") "blob:x" demoReady).msgs =
      [Msg.cropError "boom"] ∧
    (handleCrop (EngineResult.throws "boom") "blob:x" demoReady).state.isProcessing = false) := by
  have hf : demoReady.audioFile.file.isSome = true := by
    rw [demoReady_eval]
    simp
  have hl : demoReady.isFFmpegLoaded = true := by
    rw [demoReady_eval]
  exact ⟨hf, hl, handleCrop_failure_preserves demoReady "boom" "blob:x" hf hl⟩

/-- Claim C6: a region-updated event stores both reported bounds truncated
(not rounded) to the fixed precision as the interval and changes nothing
else — no push back to the region store or to any other state; in the
spec's scenario, reported bounds `(1.004, 4.009)` at precision 2 yield the
interval `(1, 4)`. -/
theorem regionUpdated_truncates_only_interval :
    (∀ a b s, (onRegionUpdated a b s).startTime = preserveDecimals a ∧
        (onRegionUpdated a b s).endTime = preserveDecimals b ∧
        (onRegionUpdated a b s).regions = s.regions ∧
        (onRegionUpdated a b s).audioFile = s.audioFile ∧
        (onRegionUpdated a b s).croppedAudioUrl = s.croppedAudioUrl ∧
        (onRegionUpdated a b s).isProcessing = s.isProcessing ∧
        (onRegionUpdated a b s).isFFmpegLoaded = s.isFFmpegLoaded) ∧
    currentInterval (onRegionUpdated (1004/1000) (4009/1000) c1state) = (1, 4) := by
  refine ⟨fun a b s => ⟨rfl, rfl, rfl, rfl, rfl, rfl, rfl⟩, ?_⟩
  norm_num [currentInterval, onRegionUpdated, preserveDecimals, jsTrunc]

/-- Claim C7: for every interval with `0 ≤ start ≤ end ≤ duration`, a
slider change followed by reading the current interval returns exactly
that interval, modulo fixed-precision truncation of both endpoints. -/
theorem sliderChange_roundtrip (a b d : ℚ) (s : CropperState)
    (h0 : 0 ≤ a) (h1 : a ≤ b) (h2 : b ≤ d) :
    currentInterval (onSliderChange a b s) = (preserveDecimals a, preserveDecimals b) := by
  unfold currentInterval onSliderChange
  rw [updateRegion_startTime, updateRegion_endTime]

/-- Claim C7, witness: the round trip at the valid interval `[2.5, 7.3]`
with duration 10; both endpoints are already at precision 2, so the
interval is returned exactly. -/
theorem sliderChange_roundtrip_witness :
    (0 : ℚ) ≤ 5/2 ∧ (5/2 : ℚ) ≤ 73/10 ∧ (73/10 : ℚ) ≤ 10 ∧
    currentInterval (onSliderChange (5/2) (73/10) c1state) = (5/2, 73/10) := by
  have h0 : (0 : ℚ) ≤ 5/2 := by norm_num
  have h1 : (5/2 : ℚ) ≤ 73/10 := by norm_num
  have h2 : (73/10 : ℚ) ≤ 10 := by norm_num
  refine ⟨h0, h1, h2, (sliderChange_roundtrip (5/2) (73/10) 10 c1state h0 h1 h2).trans ?_⟩
  norm_num [preserveDecimals, jsTrunc]

/-- Claim C8: when the engine produced no readable output file, the crop
takes exactly the same path as an engine-invocation failure whose error
message is `裁剪后的文件未生成`: same outcome, failure notification, the
cropped-result URL unchanged, and the processing flag reset. -/
theorem missingOutput_is_failure (s : CropperState) (u : String)
    (hf : s.audioFile.file.isSome = true) (hl : s.isFFmpegLoaded = true) :
    handleCrop EngineResult.noOutput u s =
      handleCrop (EngineResult.throws "裁剪后的文件未生成") u s ∧
    (handleCrop EngineResult.noOutput u s).state.croppedAudioUrl = s.croppedAudioUrl ∧
    (handleCrop EngineResult.noOutput u s).state.isProcessing = false ∧
    (handleCrop EngineResult.noOutput u s).msgs = [Msg.cropError "裁剪后的文件未生成"] := by
  obtain ⟨x, hx⟩ := Option.isSome_iff_exists.mp hf
  refine ⟨?_, ?_, ?_, ?_⟩ <;> simp [handleCrop, hx, hl]

/-- Claim C8, witness: a missing-output crop on the loaded sample state. -/
theorem missingOutput_is_failure_witness :
    demoReady.audioFile.file.isSome = true ∧ demoReady.isFFmpegLoaded = true ∧
    handleCrop EngineResult.noOutput "blob:y" demoReady =
      handleCrop (EngineResult.throws "裁剪后的文件未生成") "blob:y" demoReady ∧
    (handleCrop EngineResult.noOutput "blob:y" demoReady).state.croppedAudioUrl =
      demoReady.croppedAudioUrl ∧
    (handleCrop EngineResult.noOutput "blob:y" demoReady).state.isProcessing = false ∧
    (handleCrop EngineResult.noOutput "blob:y" demoReady).msgs =
      [Msg.cropError "裁剪后的文件未生成"] := by
  have hf : demoReady.audioFile.file.isSome = true := by
    rw [demoReady_eval]
    simp
  have hl : demoReady.isFFmpegLoaded = true := by
    rw [demoReady_eval]
  obtain ⟨h1, h2, h3, h4⟩ := missingOutput_is_failure demoReady "blob:y" hf hl
  exact ⟨hf, hl, h1, h2, h3, h4⟩

/-- Claim C9: the fixed-precision truncation applied to region and slider
values is idempotent — truncating an already-truncated value (at the same
precision, in particular the default precision 2 used at all call sites)
yields the same value. -/
theorem preserveDecimals_idempotent (v : ℚ) (p : Nat) :
    preserveDecimals (preserveDecimals v p) p = preserveDecimals v p := by
  unfold preserveDecimals
  rw [div_mul_cancel₀ _ (by positivity : ((10 : ℚ) ^ p) ≠ 0), jsTrunc_intCast]

/-- Claim C10: the `maxFileSize` prop defaults to `10485760` bytes; a file
whose size is at most the limit — in particular exactly the limit, since
the rejection comparison is strictly greater-than — is accepted and stored
with a fresh URL and duration 0, while an oversized file is rejected with
a notification and leaves the component state completely unchanged. -/
theorem upload_size_limit (f : JSFile) (url : String) (s : CropperState) (m : Nat) :
    defaultMaxFileSize = 10485760 ∧
    (f.size ≤ m →
      handleFileUpload m f url s =
        { state := { s with audioFile := { file := some f, duration := 0, url := url } }
          msgs := [], result := false }) ∧
    (m < f.size →
      handleFileUpload m f url s =
        { state := s, msgs := [Msg.fileTooLarge ((m : ℚ) / 1024 / 1024)], result := false }) := by
  refine ⟨by norm_num [defaultMaxFileSize], fun h => ?_, fun h => ?_⟩
  · unfold handleFileUpload
    rw [if_neg (not_lt.mpr h)]
  · unfold handleFileUpload
    rw [if_pos h]

/-- Claim C10, witness: a 4-byte file at limit exactly 4 is accepted; the
same file at limit 3 is rejected, leaving the initial state unchanged. -/
theorem upload_size_limit_witness :
    demoFile.size ≤ 4 ∧
    handleFileUpload 4 demoFile "blob:w" initialState =
      { state := { initialState with
                   audioFile := { file := some demoFile, duration := 0, url := "blob:w" } }
        msgs := [], result := false } ∧
    3 < demoFile.size ∧
    handleFileUpload 3 demoFile "blob:w" initialState =
      { state := initialState
        msgs := [Msg.fileTooLarge ((3 : ℚ) / 1024 / 1024)], result := false } := by
  refine ⟨by decide, ?_, by decide, ?_⟩
  · exact (upload_size_limit demoFile "blob:w" initialState 4).2.1 (by decide)
  · exact (upload_size_limit demoFile "blob:w" initialState 3).2.2 (by decide)

end AudioCropper
